import Mathlib

/-
Shallow embedding of the typescript-neuro-game-sdk protocol core
(NeuroClient in src/index.ts and NeuroClientWrapper in src/helper.ts).
Side effects of the source (loggingHandler or console calls, frames handed
to sendMessage, invocation of registered action handlers, thrown runtime
errors) are modelled as explicit components of a result structure.
External collaborators (the platform JSON parser and the jsonschema
validator) are parameters of the dispatch pipeline.
-/

namespace NeuroSDK

/-- Log severities of the SDK (the LogLevel enum in helper.ts, with the
direct console.warn and console.error calls folded into the same channel,
which matches the default loggingHandler that routes each level to the
corresponding console method). -/
inductive LogLevel where
  | debug
  | log
  | info
  | warn
  | error
deriving DecidableEq, Repr

/-- Shallow model of a JSON value, used for parsed action parameters and
for action schemas. -/
inductive Json where
  | null
  | bool (b : Bool)
  | num (n : Int)
  | str (s : String)
  | arr (elems : List Json)
  | obj (fields : List (String × Json))

/-- Keys of a JSON object, as Object.keys of the source sees an object
schema (the source only applies it to object schemas). -/
def Json.objKeys : Json → List String
  | .obj fields => fields.map (fun f => f.1)
  | _ => []

/-- An Action as in src/types.ts: name, description and an optional
object schema. -/
structure Action where
  name : String
  description : String
  schema : Option Json

/-- The priority enum for action forces (ActionForcePriorityEnum in
src/types.ts). -/
inductive ActionForcePriorityEnum where
  | low
  | medium
  | high
  | critical
deriving DecidableEq, Repr

/-- An outgoing wire frame, as constructed by the source and serialized by
sendMessage. Fields of value undefined in the source are dropped by
JSON.stringify, which the Option components model: none means the key is
absent from the serialized frame. -/
inductive Outgoing where
  | startupFrame (game : String)
  | contextFrame (game : String) (message : String) (silent : Option Bool)
  | registerFrame (game : String) (actions : List Action)
  | unregisterFrame (game : String) (actionNames : List String)
  | forceFrame (game : String) (state : Option String) (query : String)
      (ephemeralContext : Option Bool) (priority : Option ActionForcePriorityEnum)
      (actionNames : List String)
  | actionResult (game : String) (id : String) (success : Bool) (message : Option String)

/-- A reference held in the actionHandlers array. The wrapper constructor
pushes the handleActionMessage method itself into this array; every other
entry is an external handler registered through onAction, identified here
by an index. -/
inductive HandlerRef where
  | selfDispatch
  | user (k : Nat)
deriving DecidableEq, Repr

/-- The mutable state of a NeuroClientWrapper instance that the registry
and dispatch logic touches: the game name, the registeredActions array and
the actionHandlers array. -/
structure Wrapper where
  game : String
  registeredActions : List Action
  actionHandlers : List HandlerRef

/-- The observable outcome of one operation or one inbound-message
reaction: the registry contents afterwards, the frames handed to
sendMessage in order, the log events in order, the indices of external
handlers invoked in order, and an uncaught runtime error when the source
throws. -/
structure DispatchResult where
  registry : List Action
  sent : List Outgoing
  logs : List (String × LogLevel)
  invoked : List Nat
  fault : Option String

/-- Wrapper construction (helper.ts constructor): the registry starts
empty and the constructor pushes the handleActionMessage method into the
actionHandlers array. -/
def mkWrapper (game : String) : Wrapper :=
  { game := game, registeredActions := [], actionHandlers := [HandlerRef.selfDispatch] }

/-- The onAction method of the base NeuroClient: appends an external
handler to the actionHandlers array. -/
def NeuroClient.onAction (w : Wrapper) (k : Nat) : Wrapper :=
  { w with actionHandlers := w.actionHandlers ++ [HandlerRef.user k] }

/-- Names in a registration batch that already exist in the registry, in
batch order (the knownActions accumulation loop of registerActions). -/
def knownNames (reg : List Action) (actions : List Action) : List String :=
  (actions.filter (fun a => reg.any (fun b => a.name == b.name))).map (fun a => a.name)

/-- The WARN text emitted for duplicate registrations. -/
def duplicateWarnMessage (names : List String) : String :=
  "Duplicate action registered: \"" ++ String.intercalate "\", \"" names ++
    "\"\nThe Neuro server will ignore those registrations."

/-- NeuroClientWrapper.registerActions: collect already-registered names,
emit one WARN when any exist, append the whole batch (duplicates included)
to the registry, and send an actions/register frame listing the batch as
passed. -/
def NeuroClientWrapper.registerActions (w : Wrapper) (actions : List Action) : DispatchResult :=
  { registry := w.registeredActions ++ actions,
    sent := [Outgoing.registerFrame w.game actions],
    logs :=
      if knownNames w.registeredActions actions = [] then []
      else [(duplicateWarnMessage (knownNames w.registeredActions actions), LogLevel.warn)],
    invoked := [],
    fault := none }

/-- The TypeError raised by reading the name property of
registeredActions[-1], which is undefined. -/
def typeErrorUndefinedName : String :=
  "TypeError: Cannot read properties of undefined (reading \x27name\x27)"

/-- The unregistration loop of NeuroClientWrapper.unregisterActions. For
each requested name it looks up findIndex in the current registry; on a
hit it splices that entry out; on a miss (findIndex = -1) the source
evaluates registeredActions[-1].name, which throws a TypeError, leaving
the removals made so far in place. Returns the thrown error, if any,
together with the registry as mutated up to that point. -/
def unregisterLoop : List String → List Action → Option String × List Action
  | [], reg => (none, reg)
  | n :: ns, reg =>
    match reg.findIdx? (fun a => a.name == n) with
    | some i => unregisterLoop ns (reg.eraseIdx i)
    | none => (some typeErrorUndefinedName, reg)

/-- NeuroClientWrapper.unregisterActions: run the removal loop; when it
throws, the INFO log and the actions/unregister frame are never reached
(and when it does not throw, the unknownNames accumulator is necessarily
empty, so the INFO branch is dead). -/
def NeuroClientWrapper.unregisterActions (w : Wrapper) (actionNames : List String) : DispatchResult :=
  match unregisterLoop actionNames w.registeredActions with
  | (some e, reg) =>
      { registry := reg, sent := [], logs := [], invoked := [], fault := some e }
  | (none, reg) =>
      { registry := reg,
        sent := [Outgoing.unregisterFrame w.game actionNames],
        logs := [], invoked := [], fault := none }

/-- The WARN text of forceActions for unknown names. -/
def unknownForceWarnMessage (names : List String) : String :=
  "Unknown actions specified in force: \"" ++ String.intercalate "\", \"" names ++
    "\". These actions will not be considered by Neuro."

/-- The ERROR text of forceActions when every requested name is unknown. -/
def allUnknownForceMessage : String :=
  "All specified actions are unknown to Neuro, the action force will be dropped."

/-- Requested force names absent from the registry, in request order (the
unknownNames accumulation loop of forceActions). -/
def unknownForceNames (w : Wrapper) (actionNames : List String) : List String :=
  actionNames.filter (fun n => ! w.registeredActions.any (fun a => a.name == n))

/-- NeuroClientWrapper.forceActions (the override in helper.ts): partitions
the requested names against the registry, logs ERROR when every name is
unknown, logs WARN only when strictly more than one name is unknown, and
always sends the actions/force frame with the full original name list. The
optional arguments have no defaults in this override; when omitted they
stay undefined and the serialized frame omits those keys. -/
def NeuroClientWrapper.forceActions (w : Wrapper) (query : String) (actionNames : List String)
    (state : Option String) (ephemeralContext : Option Bool)
    (priority : Option ActionForcePriorityEnum) : DispatchResult :=
  { registry := w.registeredActions,
    sent := [Outgoing.forceFrame w.game state query ephemeralContext priority actionNames],
    logs :=
      if (unknownForceNames w actionNames).length = actionNames.length then
        [(allUnknownForceMessage, LogLevel.error)]
      else if 1 < (unknownForceNames w actionNames).length then
        [(unknownForceWarnMessage (unknownForceNames w actionNames), LogLevel.warn)]
      else [],
    invoked := [],
    fault := none }

/-- NeuroClient.forceActions (the base class in src/index.ts): the
ephemeralContext parameter defaults to false and the priority parameter
defaults to low when the caller omits them, so the serialized frame always
carries both keys. Returns the frame handed to sendMessage. -/
def NeuroClient.forceActions (game : String) (query : String) (actionNames : List String)
    (state : Option String) (ephemeralContext : Option Bool)
    (priority : Option ActionForcePriorityEnum) : Outgoing :=
  Outgoing.forceFrame game state query (some (ephemeralContext.getD false))
    (some (priority.getD ActionForcePriorityEnum.low)) actionNames

/-- The console.warn text inside sendActionResult, emitted whenever
success is false. -/
def emptyMessageWarnText : String :=
  "[NeuroClient] Empty messageText field even though success was false!"

/-- NeuroClient.sendActionResult: warns on console when success is false,
then sends the action/result frame. Returns the log events and the frame. -/
def NeuroClient.sendActionResult (game : String) (id : String) (success : Bool)
    (messageText : Option String) : List (String × LogLevel) × Outgoing :=
  ((if success then [] else [(emptyMessageWarnText, LogLevel.warn)]),
    Outgoing.actionResult game id success messageText)

/-- A validator-reported schema error; only the stack string is read by
the source. -/
structure SchemaError where
  stack : String

/-- The result shape of the external jsonschema validate call. -/
structure ValidationResult where
  valid : Bool
  errors : List SchemaError

/-- External collaborators of the dispatch pipeline: the platform JSON
parser and the jsonschema validator. -/
structure DispatchEnv where
  parseJson : String → Except String Json
  validate : Json → Json → ValidationResult

/-- An inbound action command payload (ActionMessageData in src/types.ts). -/
structure ActionMessageData where
  id : String
  name : String
  data : Option String

/-- Parameter acquisition at the top of handleActionMessage: actionParams
starts as the empty object and is only reassigned when the data field is
present and truthy (a present empty string is falsy and skips the parse). -/
def paramsStage (env : DispatchEnv) : Option String → Except String Json
  | none => Except.ok (Json.obj [])
  | some s => if s = "" then Except.ok (Json.obj []) else env.parseJson s

/-- Error path of each validator message: a leading instance. marker is
stripped (substring(9)). -/
def stripInstanceDot (s : String) : String :=
  if s.startsWith "instance." then s.drop 9 else s

/-- The bulleted failure list the source computes into the schemaFailures
local: the stripped error stacks, with a fallback entry when the validator
reported none, joined as a dash-bulleted list. -/
def bulletList (errors : List SchemaError) : String :=
  let messagesArray := errors.map (fun e => stripInstanceDot e.stack)
  let messagesArray :=
    if messagesArray = [] then ["Unknown schema validation error."] else messagesArray
  "- " ++ String.intercalate "\n- " messagesArray

/-- The schema-failure message actually sent by the source. The source
builds it with a template literal whose middle portion is the characters
quote-plus-schemaFailures-plus-quote written literally (not an
interpolation), so the computed bulleted list never reaches the message:
only the action name is interpolated. -/
def schemaFailureMessage (name : String) : String :=
  "[NeuroClientWrapper] Your inputs for the action \"" ++ name ++
    "\" did not pass schema validation.\n\n\x27 + schemaFailures + \x27\n\nPlease pay attention to the schema and the above errors if you choose to retry."

/-- The TypeError raised when the dispatch method, stored unbound in the
actionHandlers array by the constructor, is invoked as a plain handler
call: this is undefined in the re-entrant strict-mode call, so reading
this.registeredActions throws. -/
def unboundThisTypeError : String :=
  "TypeError: Cannot read properties of undefined (reading \x27registeredActions\x27)"

/-- Handler fan-out loop of handleActionMessage: invokes each entry of the
actionHandlers array in order. An external handler is recorded as invoked;
the selfDispatch entry is the unbound dispatch method, whose re-entrant
call throws immediately and aborts the loop, skipping every later handler. -/
def fanOut : List HandlerRef → List Nat → List Nat × Option String
  | [], acc => (acc, none)
  | HandlerRef.selfDispatch :: _, acc => (acc, some unboundThisTypeError)
  | HandlerRef.user k :: rest, acc => fanOut rest (acc ++ [k])

/-- NeuroClientWrapper.handleActionMessage: parse the data payload (on
parse failure answer a failure result and stop), look the action up (on a
miss answer a success result marked unknown and stop), validate against a
present non-empty schema (on failure answer the schema-failure result and
stop), then fan out to the actionHandlers array, or log ERROR when that
array is empty. -/
def NeuroClientWrapper.handleActionMessage (env : DispatchEnv) (w : Wrapper)
    (d : ActionMessageData) : DispatchResult :=
  match paramsStage env d.data with
  | Except.error e =>
      let errorMessage := "Invalid action data: " ++ e
      let r := NeuroClient.sendActionResult w.game d.id false (some errorMessage)
      { registry := w.registeredActions,
        sent := [r.2],
        logs := r.1 ++ [("[NeuroClientWrapper] " ++ errorMessage, LogLevel.error)],
        invoked := [],
        fault := none }
  | Except.ok actionParams =>
      match w.registeredActions.find? (fun a => a.name == d.name) with
      | none =>
          let r := NeuroClient.sendActionResult w.game d.id true
            (some ("[NeuroClientWrapper] Unknown action: \"" ++ d.name ++ "\""))
          { registry := w.registeredActions, sent := [r.2], logs := r.1,
            invoked := [], fault := none }
      | some action =>
          let schemaRejects : Bool :=
            match action.schema with
            | none => false
            | some sch =>
                if sch.objKeys.length = 0 then false
                else ! (env.validate actionParams sch).valid
          if schemaRejects then
            let r := NeuroClient.sendActionResult w.game d.id false
              (some (schemaFailureMessage d.name))
            { registry := w.registeredActions, sent := [r.2], logs := r.1,
              invoked := [], fault := none }
          else if w.actionHandlers = [] then
            { registry := w.registeredActions, sent := [],
              logs := [("[NeuroClientWrapper] No action handlers registered.", LogLevel.error)],
              invoked := [], fault := none }
          else
            let f := fanOut w.actionHandlers []
            { registry := w.registeredActions, sent := [], logs := [],
              invoked := f.1, fault := f.2 }

/-- The reaction to an inbound actions/reregister_all command: the source
calls registerActions with this.registeredActions itself. The actions
argument therefore aliases the registry array: the duplicate scan runs on
the registry before the push (so every entry reports itself as a
duplicate), the push appends the registry to itself and doubles it, and
the frame, serialized at send time from the same array, carries the
doubled list. -/
def NeuroClientWrapper.reregisterAll (w : Wrapper) : DispatchResult :=
  { registry := w.registeredActions ++ w.registeredActions,
    sent := [Outgoing.registerFrame w.game (w.registeredActions ++ w.registeredActions)],
    logs :=
      if knownNames w.registeredActions w.registeredActions = [] then []
      else [(duplicateWarnMessage (knownNames w.registeredActions w.registeredActions),
        LogLevel.warn)],
    invoked := [],
    fault := none }

/-- A decoded inbound envelope after JSON parsing, routed on its command
field. -/
inductive Incoming where
  | action (d : ActionMessageData)
  | reregisterAll
  | other (cmd : String)

/-- The command switch of NeuroClientWrapper.handleMessage on a decoded
envelope: action payloads go to handleActionMessage, actions/reregister_all
re-registers the registry against itself, anything else is logged at WARN
and dropped. -/
def NeuroClientWrapper.handleCommand (env : DispatchEnv) (w : Wrapper) :
    Incoming → DispatchResult
  | Incoming.action d => NeuroClientWrapper.handleActionMessage env w d
  | Incoming.reregisterAll => NeuroClientWrapper.reregisterAll w
  | Incoming.other cmd =>
      { registry := w.registeredActions, sent := [],
        logs := [("[NeuroClientWrapper] Received unknown/unimplemented command: " ++ cmd,
          LogLevel.warn)],
        invoked := [], fault := none }

/-- WebSocket ready states of the transport. The opened constructor stands
for the OPEN state. -/
inductive WsReadyState where
  | connecting
  | opened
  | closing
  | closed
deriving DecidableEq, Repr

/-- The transport handle of a NeuroClient: the optional WebSocket and its
ready state. -/
structure NeuroClientConn where
  ws : Option WsReadyState
deriving DecidableEq, Repr

/-- NeuroClient.disconnect: calls ws.close() only when a WebSocket exists
and its readyState is OPEN; per the WebSocket contract close() moves the
ready state to CLOSING. Returns the state afterwards and whether close()
was invoked. -/
def NeuroClient.disconnect (c : NeuroClientConn) : NeuroClientConn × Bool :=
  match c.ws with
  | some s => if s = WsReadyState.opened then ({ ws := some WsReadyState.closing }, true) else (c, false)
  | none => (c, false)

/-- Helper: find? on an appended list returns the hit found in the left
part unchanged. -/
theorem find_append_left {α : Type} (p : α → Bool) (l₂ : List α) :
    ∀ (l₁ : List α) (a : α), l₁.find? p = some a → (l₁ ++ l₂).find? p = some a := by
  intro l₁ a h
  rw [List.find?_append, h]
  rfl

/-- Demo fixtures used by the concrete instances below. -/
def actA : Action := { name := "a", description := "first", schema := none }

/-- A second action carrying the same name as actA. -/
def actA2 : Action := { name := "a", description := "second", schema := none }

/-- A wrapper whose registry holds the single action actA. -/
def w1demo : Wrapper := { mkWrapper "g" with registeredActions := [actA] }

/-- An environment whose parser always succeeds with an empty object and
whose validator always accepts. -/
def envDemo : DispatchEnv :=
  { parseJson := fun _ => Except.ok (Json.obj []),
    validate := fun _ _ => { valid := true, errors := [] } }

/-- C8: disconnect closes the transport only when the ready state is OPEN;
running disconnect again right after never invokes close a second time and
leaves the state untouched, so repeated disconnects are error-free no-ops. -/
theorem disconnect_idempotent (c : NeuroClientConn) :
    ((NeuroClient.disconnect c).2 = true ↔ c.ws = some WsReadyState.opened) ∧
    NeuroClient.disconnect (NeuroClient.disconnect c).1 =
      ((NeuroClient.disconnect c).1, false) := by
  rcases c with ⟨ws⟩
  cases ws with
  | none => simp [NeuroClient.disconnect]
  | some s => cases s <;> simp [NeuroClient.disconnect]

/-- C6: an incoming action request whose name has no entry in the registry
is answered with exactly one action/result frame for that id with success
true and an unknown-action message; nothing is logged, no handler is
invoked, and nothing is thrown. -/
theorem unknown_action_result (env : DispatchEnv) (w : Wrapper) (d : ActionMessageData)
    (p : Json) (hp : paramsStage env d.data = Except.ok p)
    (hfind : w.registeredActions.find? (fun a => a.name == d.name) = none) :
    (NeuroClientWrapper.handleActionMessage env w d).sent =
      [Outgoing.actionResult w.game d.id true
        (some ("[NeuroClientWrapper] Unknown action: \"" ++ d.name ++ "\""))] ∧
    (NeuroClientWrapper.handleActionMessage env w d).invoked = [] ∧
    (NeuroClientWrapper.handleActionMessage env w d).logs = [] ∧
    (NeuroClientWrapper.handleActionMessage env w d).fault = none := by
  simp [NeuroClientWrapper.handleActionMessage, hp, hfind, NeuroClient.sendActionResult]

/-- C6 witness: the request for the unregistered name jump against an
empty registry. -/
theorem unknown_action_result_witness :
    paramsStage envDemo none = Except.ok (Json.obj []) ∧
    (mkWrapper "g").registeredActions.find? (fun a => a.name == "jump") = none ∧
    (NeuroClientWrapper.handleActionMessage envDemo (mkWrapper "g")
      { id := "5", name := "jump", data := none }).sent =
      [Outgoing.actionResult (mkWrapper "g").game "5" true
        (some ("[NeuroClientWrapper] Unknown action: \"" ++ "jump" ++ "\""))] :=
  ⟨rfl, rfl,
    (unknown_action_result envDemo (mkWrapper "g")
      { id := "5", name := "jump", data := none } (Json.obj []) rfl rfl).1⟩

/-- C7: an incoming action request whose data payload fails JSON decoding
is answered with exactly one action/result frame for that id with success
false and a message beginning with the invalid-action-data prefix; no
handler is invoked, the registry is untouched, nothing is thrown, and an
absent data field yields the empty object as params. -/
theorem invalid_action_data_result (env : DispatchEnv) (w : Wrapper)
    (id name s e : String) (hs : ¬ s = "") (hp : env.parseJson s = Except.error e) :
    (NeuroClientWrapper.handleActionMessage env w { id := id, name := name, data := some s }).sent =
      [Outgoing.actionResult w.game id false (some ("Invalid action data: " ++ e))] ∧
    (NeuroClientWrapper.handleActionMessage env w { id := id, name := name, data := some s }).invoked = [] ∧
    (NeuroClientWrapper.handleActionMessage env w { id := id, name := name, data := some s }).registry =
      w.registeredActions ∧
    (NeuroClientWrapper.handleActionMessage env w { id := id, name := name, data := some s }).fault = none ∧
    paramsStage env none = Except.ok (Json.obj []) := by
  simp [NeuroClientWrapper.handleActionMessage, paramsStage, hs, hp,
    NeuroClient.sendActionResult]

/-- An environment whose parser always fails, standing for a malformed
payload handed to JSON.parse. -/
def envErr : DispatchEnv :=
  { parseJson := fun _ => Except.error "Unexpected token b in JSON at position 0",
    validate := fun _ _ => { valid := true, errors := [] } }

/-- C7 witness: a malformed data payload against the demo wrapper. -/
theorem invalid_action_data_result_witness :
    ¬ ("bad" : String) = "" ∧
    envErr.parseJson "bad" = Except.error "Unexpected token b in JSON at position 0" ∧
    (NeuroClientWrapper.handleActionMessage envErr w1demo
      { id := "9", name := "a", data := some "bad" }).sent =
      [Outgoing.actionResult w1demo.game "9" false
        (some ("Invalid action data: " ++ "Unexpected token b in JSON at position 0"))] :=
  ⟨by decide, rfl,
    (invalid_action_data_result envErr w1demo "9" "a" "bad"
      "Unexpected token b in JSON at position 0" (by decide) rfl).1⟩

/-- C1 counterexample: registering a second action named a on a registry
already holding an action named a leaves two registry entries under that
name, not exactly one. -/
theorem register_duplicate_two_entries_counterexample :
    ¬ (((NeuroClientWrapper.registerActions w1demo [actA2]).registry.filter
        (fun a => a.name == "a")).length = 1) := by
  decide

/-- C1 amended: registering a batch with already-registered names appends
the whole batch to the registry (so the duplicate entries are physically
retained), sends an actions/register frame listing every action passed,
logs exactly one WARN naming the duplicates, and name lookup still
resolves to the original entry. -/
theorem register_duplicate_spec (w : Wrapper) (actions : List Action)
    (n : String) (a : Action)
    (hdup : ¬ knownNames w.registeredActions actions = [])
    (hfind : w.registeredActions.find? (fun b => b.name == n) = some a) :
    (NeuroClientWrapper.registerActions w actions).registry =
      w.registeredActions ++ actions ∧
    (NeuroClientWrapper.registerActions w actions).sent =
      [Outgoing.registerFrame w.game actions] ∧
    (NeuroClientWrapper.registerActions w actions).logs =
      [(duplicateWarnMessage (knownNames w.registeredActions actions), LogLevel.warn)] ∧
    (NeuroClientWrapper.registerActions w actions).registry.find?
      (fun b => b.name == n) = some a := by
  refine ⟨rfl, rfl, ?_, ?_⟩
  · simp [NeuroClientWrapper.registerActions, hdup]
  · exact find_append_left (fun b => b.name == n) actions w.registeredActions a hfind

/-- C1 witness: the duplicate registration of a second action named a. -/
theorem register_duplicate_spec_witness :
    ¬ knownNames w1demo.registeredActions [actA2] = [] ∧
    w1demo.registeredActions.find? (fun b => b.name == "a") = some actA ∧
    (NeuroClientWrapper.registerActions w1demo [actA2]).registry.find?
      (fun b => b.name == "a") = some actA :=
  ⟨by decide, rfl,
    (register_duplicate_spec w1demo [actA2] "a" actA (by decide) rfl).2.2.2⟩

/-- C2: reacting to an incoming actions/reregister_all command on a
registry holding the single action actA logs a duplicate-name WARN naming
a, doubles the registry to two copies of actA, and sends a register frame
listing the action twice, because registerActions is invoked on the
registry array itself. -/
theorem reregister_all_doubles_registry :
    (NeuroClientWrapper.handleCommand envDemo w1demo Incoming.reregisterAll).registry =
      [actA, actA] ∧
    (NeuroClientWrapper.handleCommand envDemo w1demo Incoming.reregisterAll).logs =
      [(duplicateWarnMessage ["a"], LogLevel.warn)] ∧
    (NeuroClientWrapper.handleCommand envDemo w1demo Incoming.reregisterAll).sent =
      [Outgoing.registerFrame "g" [actA, actA]] := by
  refine ⟨rfl, ?_, rfl⟩
  have h : ¬ knownNames w1demo.registeredActions w1demo.registeredActions = [] := by decide
  simp [NeuroClientWrapper.handleCommand, NeuroClientWrapper.reregisterAll, h]
  decide

/-- C3: unregistering the names a and x on a registry holding only the
action named a removes a, then throws a TypeError on the unknown name x:
the registry keeps the removal, but no INFO entry is logged and no
actions/unregister frame is sent. -/
theorem unregister_unknown_name_typeerror :
    (NeuroClientWrapper.unregisterActions w1demo ["a", "x"]).fault =
      some typeErrorUndefinedName ∧
    (NeuroClientWrapper.unregisterActions w1demo ["a", "x"]).sent = [] ∧
    (NeuroClientWrapper.unregisterActions w1demo ["a", "x"]).logs = [] ∧
    (NeuroClientWrapper.unregisterActions w1demo ["a", "x"]).registry = [] :=
  ⟨rfl, rfl, rfl, rfl⟩

/-- The schema attached to the demo action guess_number: a non-empty
object, so the validating branch is taken. -/
def guessSchema : Json := Json.obj [("type", Json.str "object")]

/-- The registered action guess_number with the non-empty schema. -/
def guessAction : Action :=
  { name := "guess_number", description := "Guess a number", schema := some guessSchema }

/-- A wrapper with guess_number registered and one external handler. -/
def wGuess : Wrapper :=
  { NeuroClient.onAction (mkWrapper "g") 0 with registeredActions := [guessAction] }

/-- An environment whose validator rejects with one error whose path
reports the number bound violation. -/
def envReject : DispatchEnv :=
  { parseJson := fun _ => Except.ok (Json.obj [("number", Json.num 99)]),
    validate := fun _ _ =>
      { valid := false,
        errors := [{ stack := "instance.number must be less than or equal to 10" }] } }

/-- The same environment with an entirely different validator error list,
used to show the sent message does not depend on the reported errors. -/
def envReject2 : DispatchEnv :=
  { parseJson := fun _ => Except.ok (Json.obj [("number", Json.num 99)]),
    validate := fun _ _ =>
      { valid := false,
        errors := [{ stack := "instance.other some different failure" }] } }

/-- The incoming request carrying parameters that fail the schema. -/
def msg99 : ActionMessageData :=
  { id := "7", name := "guess_number", data := some "payload99" }

/-- Helper: whether the pattern occurs as a contiguous run inside the
character list. -/
def charInfix (pat : List Char) : List Char → Bool
  | [] => pat.isEmpty
  | c :: rest => pat.isPrefixOf (c :: rest) || charInfix pat rest

/-- C4: when validation fails, exactly one action/result with success
false is sent and no handler is invoked, but the message is the fixed
template text of schemaFailureMessage, which interpolates only the action
name: it is identical under different validator error lists and does not
contain the computed bulleted error list. -/
theorem schema_failure_message_omits_errors :
    (NeuroClientWrapper.handleActionMessage envReject wGuess msg99).sent =
      [Outgoing.actionResult "g" "7" false (some (schemaFailureMessage "guess_number"))] ∧
    (NeuroClientWrapper.handleActionMessage envReject wGuess msg99).invoked = [] ∧
    (NeuroClientWrapper.handleActionMessage envReject wGuess msg99).sent =
      (NeuroClientWrapper.handleActionMessage envReject2 wGuess msg99).sent ∧
    charInfix
      (bulletList [{ stack := "instance.number must be less than or equal to 10" }]).data
      (schemaFailureMessage "guess_number").data = false :=
  ⟨rfl, rfl, rfl, by decide⟩

/-- C5 counterexample: forcing with names a and b when only a is
registered logs nothing at all, in particular not the single WARN the
claim requires, because the source warns only when strictly more than one
name is unknown. -/
theorem force_single_unknown_counterexample :
    (NeuroClientWrapper.forceActions w1demo "pick one" ["a", "b"] none none none).logs = [] ∧
    ¬ ((NeuroClientWrapper.forceActions w1demo "pick one" ["a", "b"] none none none).logs.length
      = 1) := by
  decide

/-- C5 amended: when some but not all requested names are unknown, the
outgoing actions/force frame always carries the full original name list,
but the WARN naming the unknown names is logged only when strictly more
than one name is unknown; with exactly one unknown name nothing is
logged. -/
theorem force_partial_unknown_spec (w : Wrapper) (query : String) (names : List String)
    (state : Option String) (ec : Option Bool) (pr : Option ActionForcePriorityEnum)
    (hnotall : ¬ (unknownForceNames w names).length = names.length)
    (hsome : ¬ unknownForceNames w names = []) :
    (NeuroClientWrapper.forceActions w query names state ec pr).sent =
      [Outgoing.forceFrame w.game state query ec pr names] ∧
    (NeuroClientWrapper.forceActions w query names state ec pr).logs =
      (if 1 < (unknownForceNames w names).length then
        [(unknownForceWarnMessage (unknownForceNames w names), LogLevel.warn)]
      else []) ∧
    (NeuroClientWrapper.forceActions w query names state ec pr).registry =
      w.registeredActions := by
  refine ⟨rfl, ?_, rfl⟩
  simp [NeuroClientWrapper.forceActions, hnotall]

/-- C5 witness: forcing with the names a, b and c when only a is
registered: two names are unknown, so the WARN fires and the frame still
carries the full list. -/
theorem force_partial_unknown_spec_witness :
    ¬ (unknownForceNames w1demo ["a", "b", "c"]).length =
      (["a", "b", "c"] : List String).length ∧
    ¬ unknownForceNames w1demo ["a", "b", "c"] = [] ∧
    (NeuroClientWrapper.forceActions w1demo "pick" ["a", "b", "c"] none none none).sent =
      [Outgoing.forceFrame w1demo.game none "pick" none none ["a", "b", "c"]] :=
  ⟨by decide, by decide,
    (force_partial_unknown_spec w1demo "pick" ["a", "b", "c"] none none none
      (by decide) (by decide)).1⟩

/-- Priority component of a force frame, none on any other frame. -/
def Outgoing.forcePriority : Outgoing → Option ActionForcePriorityEnum
  | Outgoing.forceFrame _ _ _ _ p _ => p
  | _ => none

/-- Ephemeral-context component of a force frame, none on any other
frame. -/
def Outgoing.forceEphemeral : Outgoing → Option Bool
  | Outgoing.forceFrame _ _ _ ec _ _ => ec
  | _ => none

/-- C9 counterexample: a wrapper forceActions call with the priority and
ephemeralContext arguments omitted sends one frame carrying no priority
key and no ephemeral_context key at all, which is not a frame carrying
priority low. -/
theorem force_wrapper_omits_defaults_counterexample :
    (NeuroClientWrapper.forceActions w1demo "q" ["a"] none none none).sent.map
      Outgoing.forcePriority = [none] ∧
    (NeuroClientWrapper.forceActions w1demo "q" ["a"] none none none).sent.map
      Outgoing.forceEphemeral = [none] ∧
    ¬ ((none : Option ActionForcePriorityEnum) = some ActionForcePriorityEnum.low) :=
  ⟨rfl, rfl, by decide⟩

/-- C9 amended: the base NeuroClient.forceActions applies the parameter
defaults, so an omitted priority yields low and an omitted
ephemeralContext yields false in the frame; the overriding wrapper
forceActions passes the omitted arguments through unchanged, so its frame
omits both keys. -/
theorem force_defaults_spec (w : Wrapper) (game query : String) (names : List String)
    (state : Option String) :
    NeuroClient.forceActions game query names state none none =
      Outgoing.forceFrame game state query (some false)
        (some ActionForcePriorityEnum.low) names ∧
    (NeuroClientWrapper.forceActions w query names state none none).sent.map
      Outgoing.forcePriority = [none] ∧
    (NeuroClientWrapper.forceActions w query names state none none).sent.map
      Outgoing.forceEphemeral = [none] :=
  ⟨rfl, rfl, rfl⟩

/-- The registered schema-free action named x used by the dispatch
re-entry instance. -/
def actX : Action := { name := "x", description := "an action", schema := none }

/-- A wrapper as built by the source: the constructor has pushed the
dispatch method into actionHandlers, one external handler was added
through onAction, and the action x is registered. -/
def wSelf : Wrapper :=
  { NeuroClient.onAction (mkWrapper "g") 0 with registeredActions := [actX] }

/-- The incoming request for the registered action x. -/
def msgX : ActionMessageData := { id := "1", name := "x", data := none }

/-- C10: on a valid request for the registered schema-free action x, the
fan-out reaches the dispatch method stored in its own handler list by the
constructor, re-enters it as an unbound call, and throws; the external
handler registered through onAction is never invoked and no result frame
is sent. -/
theorem dispatch_reentry_fault :
    wSelf.actionHandlers = [HandlerRef.selfDispatch, HandlerRef.user 0] ∧
    (NeuroClientWrapper.handleActionMessage envDemo wSelf msgX).invoked = [] ∧
    (NeuroClientWrapper.handleActionMessage envDemo wSelf msgX).fault =
      some unboundThisTypeError ∧
    (NeuroClientWrapper.handleActionMessage envDemo wSelf msgX).sent = [] :=
  ⟨rfl, rfl, rfl, rfl⟩

end NeuroSDK

